import Mathlib

/-!
Verification of the book-library synchronization core: the rating
aggregator (`functions/src/calculateAvgRating.ts`), the denormalization
propagators (`functions/src/syncBooksInfo.ts`,
`functions/src/syncAuthorName.ts`) and the client-side reconciler
(`src/lib/features/books/context/books.svelte.ts`), shallowly embedded
as pure Lean functions over explicit store states and write traces.
-/

namespace BookLibrary

/-! ## Firestore WriteBatch model

A `WriteBatch` accumulates writes locally and is committed once; the admin
SDK throws synchronously when a committed batch is modified or re-committed.
Writes in the aggregator's fan-out all carry the same payload, so a batched
write is identified by its target user id. -/

inductive JsError
  | committedBatchModified
  deriving Repr, DecidableEq

structure WriteBatch where
  writes : List String
  committed : Bool
  deriving Repr, DecidableEq

def WriteBatch.empty : WriteBatch := ⟨[], false⟩

def WriteBatch.update (b : WriteBatch) (uid : String) : Except JsError WriteBatch :=
  if b.committed then .error .committedBatchModified
  else .ok { b with writes := b.writes ++ [uid] }

def WriteBatch.commit (b : WriteBatch) : Except JsError (WriteBatch × List String) :=
  if b.committed then .error .committedBatchModified
  else .ok ({ b with committed := true }, b.writes)

/-! ## Rating aggregator (`calculateAvgRating.ts`) -/

/-- The parent book document as read by the aggregator. -/
structure BookDoc where
  avgRating : ℚ
  ratingCount : ℕ
  deriving Repr, DecidableEq

/-- The field set of the `bookRef.update({...})` call: the source writes
`avgRating` and `updatedAt` only; a `none` field is absent from the patch. -/
structure BookPatch where
  avgRating : Option ℚ
  ratingCount : Option ℕ
  updatedAt : Bool
  deriving Repr, DecidableEq

/-- Lines 54-63: `currentAvgRating === 0` means first rating, otherwise the
new average is the two-point blend `(currentAvgRating + newRating) / 2`. -/
def calcNewAvgRating (currentAvgRating newRating : ℚ) : ℚ :=
  if currentAvgRating = 0 then newRating
  else (currentAvgRating + newRating) / 2

/-- State of the fan-out loop (lines 77-102): the single `const batch`,
`operationsCount`, and the pushed `batch.commit()` results (`batches`). -/
structure FanoutAcc where
  batch : WriteBatch
  operationsCount : ℕ
  batches : List (List String)
  deriving Repr, DecidableEq

/-- One iteration of the fan-out loop for a user whose savedBook existence
flag is `saved`: commit when `operationsCount >= 100`, then `batch.update`.
The source never replaces `batch` by a fresh one after a commit. -/
def aggFanoutStep (acc : FanoutAcc) (saved : Bool) (uid : String) :
    FanoutAcc × Option JsError :=
  if saved then
    let (acc, err) :=
      if acc.operationsCount ≥ 100 then
        match acc.batch.commit with
        | .ok (b, ws) =>
            ({ acc with batch := b, operationsCount := 0, batches := acc.batches ++ [ws] }, none)
        | .error e => (acc, some e)
      else (acc, none)
    match err with
    | some e => (acc, some e)
    | none =>
        match acc.batch.update uid with
        | .ok b => ({ acc with batch := b, operationsCount := acc.operationsCount + 1 }, none)
        | .error e => (acc, some e)
  else (acc, none)

/-- The fan-out loop over the users snapshot; a thrown error aborts the
loop but keeps the commits already issued. -/
def aggFanoutLoop : List (String × Bool) → FanoutAcc → FanoutAcc × Option JsError
  | [], acc => (acc, none)
  | (uid, saved) :: rest, acc =>
      match aggFanoutStep acc saved uid with
      | (acc', none) => aggFanoutLoop rest acc'
      | (acc', some e) => (acc', some e)

/-- Input of one aggregator invocation: the rating payload (`none` models a
missing or non-numeric `ratingValue`), the parent book lookup result, the
users snapshot with savedBook-existence flags, and which batch commits fail
remotely (rejecting their promise). -/
structure AggInput where
  ratingValue? : Option ℚ
  bookDoc? : Option BookDoc
  users : List (String × Bool)
  commitFails : ℕ → Bool

/-- Observable effects of one aggregator invocation. `savedBookCommits` are
the issued `batch.commit()` calls (their write target user ids, in order);
`savedBookApplied` keeps those whose commit succeeded remotely; the source
contains no operation on the ratings subcollection, hence `ratingDeleted`. -/
structure AggEffects where
  bookPatch? : Option BookPatch
  savedBookCommits : List (List String)
  savedBookApplied : List (List String)
  fanoutError : Option JsError
  ratingDeleted : Bool
  deriving Repr, DecidableEq

/-- The aggregator result object; `none` embeds `return null`. -/
structure AggResult where
  success : Bool
  deriving Repr, DecidableEq

def emptyAggEffects : AggEffects := ⟨none, [], [], none, false⟩

/-- Batches whose remote commit succeeded (a rejected commit applies no
writes; batches commit independently of each other). -/
def appliedBatches (commitFails : ℕ → Bool) : List (List String) → ℕ → List (List String)
  | [], _ => []
  | ws :: rest, i =>
      if commitFails i then appliedBatches commitFails rest (i + 1)
      else ws :: appliedBatches commitFails rest (i + 1)

/-- The complete fan-out of lines 74-111: run the loop, then issue the
trailing `batch.commit()` when `operationsCount > 0` (skipped when the
loop threw, as the exception jumps to the catch clause). -/
def aggFanout (users : List (String × Bool)) : FanoutAcc × Option JsError :=
  let r := aggFanoutLoop users ⟨WriteBatch.empty, 0, []⟩
  match r.2 with
  | some e => (r.1, some e)
  | none =>
      if r.1.operationsCount > 0 then
        match r.1.batch.commit with
        | .ok (b, ws) =>
            ({ r.1 with batch := b, batches := r.1.batches ++ [ws] }, none)
        | .error e => (r.1, some e)
      else (r.1, none)

/-- Shallow embedding of `calculateAvgRating` (lines 19-129): guard on the
rating payload, load the parent book (absent book: `return null` with no
writes), compute the new average, patch the book, then fan out to
savedBooks inside a try/catch whose catch clause only logs
("Continue execution even if savedBooks update fails"), and return
`{ success: true }`. -/
def calculateAvgRating (inp : AggInput) : AggEffects × Option AggResult :=
  match inp.ratingValue? with
  | none => (emptyAggEffects, none)
  | some newRating =>
    match inp.bookDoc? with
    | none => (emptyAggEffects, none)
    | some book =>
      let newAvgRating := calcNewAvgRating book.avgRating newRating
      let fan := aggFanout inp.users
      ({ bookPatch? := some ⟨some newAvgRating, none, true⟩,
         savedBookCommits := fan.1.batches,
         savedBookApplied := appliedBatches inp.commitFails fan.1.batches 0,
         fanoutError := fan.2,
         ratingDeleted := false },
       some ⟨true⟩)

/-! ## Book-field propagator (`syncBooksInfo.ts`)

Field values live in a small JavaScript value model: strings and numbers
compare by value under `===`, arrays (objects) by reference. Each document
snapshot deserializes arrays afresh, so the `before` and `after` snapshots
of one event never share an array reference. -/

inductive JSVal
  | str (s : String)
  | num (q : ℚ)
  | arr (ref : ℕ) (elems : List String)
  | undefined
  deriving Repr, DecidableEq

/-- JavaScript strict equality `===` as used by `beforeData[field] !== afterData[field]`:
value comparison for primitives, reference comparison for arrays. -/
def strictEq : JSVal → JSVal → Bool
  | .str a, .str b => a == b
  | .num a, .num b => a == b
  | .arr r _, .arr r' _ => r == r'
  | .undefined, .undefined => true
  | _, _ => false

/-- The spec's notion of two field values being the same value (contents of
arrays compared elementwise), used only to state claims about "changed
value". -/
def sameValue : JSVal → JSVal → Bool
  | .str a, .str b => a == b
  | .num a, .num b => a == b
  | .arr _ e, .arr _ e' => e == e'
  | .undefined, .undefined => true
  | _, _ => false

/-- Line 30: `const relevantFields = ["title", "coverUrl", "genre", "tags"]`. -/
def relevantFields : List String := ["title", "coverUrl", "genre", "tags"]

/-- A document's data is a map from field name to value (JS object). -/
def DocData : Type := String → JSVal

/-- Lines 31-33: `relevantFields.some((field) => beforeData[field] !== afterData[field])`. -/
def hasRelevantChanges (beforeData afterData : DocData) : Bool :=
  relevantFields.any fun f => !(strictEq (beforeData f) (afterData f))

/-- Lines 42-48: the update object holding `afterData[field]` for exactly the
fields where `beforeData[field] !== afterData[field]`, in field order. -/
def mkUpdateData (beforeData afterData : DocData) : List (String × JSVal) :=
  relevantFields.foldl
    (fun acc f =>
      if !(strictEq (beforeData f) (afterData f)) then acc ++ [(f, afterData f)] else acc)
    []

/-- Applying an update object to a document: listed fields are replaced,
all other fields keep their values. -/
def applyPatch (d : DocData) (patch : List (String × JSVal)) : DocData :=
  patch.foldl (fun d kv => fun f => if f == kv.1 then kv.2 else d f) d

/-- Fan-out state of `syncBooksInfo` (lines 55-57): the current batch's
writes (target user id with the payload), its size, and the committed
batches. Here the source does reset `batch = db.batch()` after a commit. -/
structure SyncAcc where
  curBatch : List (String × List (String × JSVal))
  batchCount : ℕ
  committed : List (List (String × List (String × JSVal)))
  deriving Repr, DecidableEq

/-- Lines 59-81: for each user whose savedBooks contain this book, add the
update to the batch and commit whenever the batch reaches 100 writes. -/
def syncFanoutLoop (updateData : List (String × JSVal)) :
    List (String × Bool) → SyncAcc → SyncAcc
  | [], acc => acc
  | (uid, saved) :: rest, acc =>
      if saved then
        let acc := { acc with
          curBatch := acc.curBatch ++ [(uid, updateData)],
          batchCount := acc.batchCount + 1 }
        let acc :=
          if acc.batchCount ≥ 100 then
            { curBatch := [], batchCount := 0, committed := acc.committed ++ [acc.curBatch] }
          else acc
        syncFanoutLoop updateData rest acc
      else syncFanoutLoop updateData rest acc

/-- Input of one `syncBooksInfo` invocation: the before/after snapshots of
the book and the users snapshot, each user carrying their savedBooks
projection of this book when it exists. -/
structure SyncInput where
  beforeData : DocData
  afterData : DocData
  users : List (String × Option DocData)

/-- Effects of one `syncBooksInfo` invocation: the committed batches of
projection writes, the resulting projection documents per user, and the
returned result (`none` embeds `return null`). -/
structure SyncEffects where
  batches : List (List (String × List (String × JSVal)))
  projections : List (String × Option DocData)
  result : Option Bool

/-- All issued projection writes, in order. -/
def SyncEffects.writes (e : SyncEffects) : List (String × List (String × JSVal)) :=
  e.batches.flatten

/-- Shallow embedding of `syncBooksInfo` (lines 16-109): no-op unless some
relevant field differs under `!==`; otherwise patch every existing
projection with the update object, in batches of at most 100, commit the
remainder, await all batches and return success. -/
def syncBooksInfo (inp : SyncInput) : SyncEffects :=
  if !(hasRelevantChanges inp.beforeData inp.afterData) then
    ⟨[], inp.users, none⟩
  else
    let updateData := mkUpdateData inp.beforeData inp.afterData
    let acc := syncFanoutLoop updateData
      (inp.users.map fun p => (p.1, p.2.isSome)) ⟨[], 0, []⟩
    let acc :=
      if acc.batchCount > 0 then
        { curBatch := [], batchCount := 0, committed := acc.committed ++ [acc.curBatch] }
      else acc
    ⟨acc.committed,
     inp.users.map fun p => (p.1, p.2.map fun d => applyPatch d updateData),
     some true⟩

/-! ## Author-name propagator (`syncAuthorName.ts`) -/

/-- A canonical book record as touched by `syncAuthorName`. -/
structure BookRec where
  id : String
  authorId : String
  authorName : String
  deriving Repr, DecidableEq

/-- A savedBooks projection record as touched by `syncAuthorName`
(document id = the book id, plus the cached author name). -/
structure SavedRec where
  bookId : String
  authorName : String
  deriving Repr, DecidableEq

/-- Input of one `syncAuthorName` invocation: the updated user, their
before/after display names, the auth custom-claims role (`none` when no
custom claims), all books, and every user's savedBooks collection. -/
structure AuthorSyncInput where
  userId : String
  beforeName : String
  afterName : String
  role? : Option String
  books : List BookRec
  users : List (String × List SavedRec)

/-- Output state of one `syncAuthorName` invocation (`result = none`
embeds the `return null` early exits). -/
structure AuthorSyncOutput where
  books : List BookRec
  users : List (String × List SavedRec)
  result : Option Bool
  deriving Repr, DecidableEq

/-- Lines 59-65: the books batch patches `authorName` on every book whose
`authorId` equals the updated user's id. -/
def syncBookRec (inp : AuthorSyncInput) (b : BookRec) : BookRec :=
  if b.authorId == inp.userId then { b with authorName := inp.afterName } else b

/-- Lines 88-96: in each user's savedBooks, the query
`where("authorName", "==", beforeData.displayName)` selects the records
whose cached name equals the old name; each gets `authorName` patched. -/
def syncSavedRec (inp : AuthorSyncInput) (s : SavedRec) : SavedRec :=
  if s.authorName == inp.beforeName then { s with authorName := inp.afterName } else s

/-- Shallow embedding of `syncAuthorName` (lines 16-139): no-op when the
display name did not change, when the user is not an author, or when the
author has no books; otherwise patch all of the author's books, then patch
every savedBooks record cached under the old name, and return success. -/
def syncAuthorName (inp : AuthorSyncInput) : AuthorSyncOutput :=
  if inp.beforeName == inp.afterName then ⟨inp.books, inp.users, none⟩
  else if !(inp.role? == some "author") then ⟨inp.books, inp.users, none⟩
  else if (inp.books.filter fun b => b.authorId == inp.userId).isEmpty then
    ⟨inp.books, inp.users, none⟩
  else
    ⟨inp.books.map (syncBookRec inp),
     inp.users.map fun p => (p.1, p.2.map (syncSavedRec inp)),
     some true⟩

/-! ## Client reconciler (`books.svelte.ts`, `BookState.rateBook`) -/

/-- The canonical book document as read by the client; `avgRating` and
`ratingCount` may be absent (the source defaults both with `|| 0`). -/
structure ClientBookDoc where
  avgRating? : Option ℚ
  ratingCount? : Option ℕ
  deriving Repr, DecidableEq

/-- A remote write issued by `rateBook`: the `setDoc` of the rating
document under `books/{bookId}/ratings/{uid}`, or the `updateDoc` of the
book document with the fields `avgRating`, `ratingCount`, `updatedAt`. -/
inductive ClientWrite
  | setRating (userId : String) (ratingValue : ℚ)
  | updateBook (avgRating : ℚ) (ratingCount : ℕ) (updatedAt : Bool)
  deriving Repr, DecidableEq

/-- Input of one `rateBook` call: the authenticated user, the book lookup
result, the user's existing rating document value if any, whether
`this.book` currently holds this book, and the submitted rating. -/
structure RateBookInput where
  currentUser? : Option String
  bookDoc? : Option ClientBookDoc
  priorRating? : Option ℚ
  localBookLoaded : Bool
  rating : ℚ

/-- Effects of one `rateBook` call: the remote writes in issue order, the
reactive local `avgRating` update when applied, the error message set on
failure, and the returned boolean. -/
structure RateBookOutput where
  writes : List ClientWrite
  localAvg? : Option ℚ
  errorMsg? : Option String
  returnValue : Bool
  deriving Repr, DecidableEq

/-- Shallow embedding of `BookState.rateBook` (lines 199-285): guard on
auth and book existence, read the prior rating to decide new-vs-corrected,
write the rating document, recompute the average incrementally, write
`avgRating`/`ratingCount`/`updatedAt` onto the book document, and update
the local state when this book is loaded. -/
def rateBook (inp : RateBookInput) : RateBookOutput :=
  match inp.currentUser? with
  | none => ⟨[], none, some "User not authenticated", false⟩
  | some uid =>
    match inp.bookDoc? with
    | none => ⟨[], none, some "Book not found", false⟩
    | some bookData =>
      let currentAvgRating := bookData.avgRating?.getD 0
      let currentRatingCount := bookData.ratingCount?.getD 0
      let isNewRating := inp.priorRating?.isNone
      let previousRating := inp.priorRating?.getD 0
      let newRatingCount := if isNewRating then currentRatingCount + 1 else currentRatingCount
      let newAvgRating :=
        if isNewRating then
          (currentAvgRating * currentRatingCount + inp.rating) / (newRatingCount : ℚ)
        else
          (currentAvgRating * currentRatingCount - previousRating + inp.rating) /
            (currentRatingCount : ℚ)
      ⟨[.setRating uid inp.rating, .updateBook newAvgRating newRatingCount true],
       if inp.localBookLoaded then some newAvgRating else none,
       none, true⟩

/-- The spec's reference incremental-mean formula for a brand-new rating
(§4.1 step 3): `newAvg = (oldAvg * oldCount + newValue) / (oldCount + 1)`. -/
def specNewRatingAvg (oldAvg : ℚ) (oldCount : ℕ) (newValue : ℚ) : ℚ :=
  (oldAvg * oldCount + newValue) / (oldCount + 1)

/-- The spec's reference incremental-mean formula for a corrected rating
(§4.1 step 3): `newAvg = (oldAvg * oldCount - oldValue + newValue) / oldCount`. -/
def specCorrectedRatingAvg (oldAvg : ℚ) (oldCount : ℕ) (oldValue newValue : ℚ) : ℚ :=
  (oldAvg * oldCount - oldValue + newValue) / oldCount

/-! ## Client save/unsave (`books.svelte.ts`, `BookState.saveBook`) -/

/-- The full canonical book as held by the client. -/
structure ClientBook where
  id : String
  title : String
  authorName : String
  authorId : String
  coverUrl : String
  avgRating : ℚ
  genre : String
  tags : List String
  description : String
  pages : ℕ
  deriving Repr, DecidableEq

/-- The savedBooks document created by `saveBook` (lines 167-176): the
copied subset of book fields plus the owning user id, in literal order. -/
structure SavedBookDoc where
  id : String
  title : String
  authorName : String
  coverUrl : String
  avgRating : ℚ
  genre : String
  tags : List String
  userId : String
  deriving Repr, DecidableEq

/-- The object literal of lines 167-176. -/
def mkSavedBook (book : ClientBook) (uid : String) : SavedBookDoc :=
  ⟨book.id, book.title, book.authorName, book.coverUrl, book.avgRating,
   book.genre, book.tags, uid⟩

/-- The state `saveBook` toggles: the `isBookSaved` flag and the user's
savedBooks document `users/{uid}/savedBooks/{book.id}` if present. -/
structure SaveState where
  isBookSaved : Bool
  savedDoc? : Option SavedBookDoc
  deriving Repr, DecidableEq

/-- Shallow embedding of `BookState.saveBook` (lines 141-191): unauthenticated
calls fail; otherwise `deleteDoc` the projection and clear the flag when
`isBookSaved`, else `setDoc` the copied projection and set the flag; the
call returns `true` on either branch. -/
def saveBook (currentUser? : Option String) (book : ClientBook) (st : SaveState) :
    SaveState × Bool :=
  match currentUser? with
  | none => (st, false)
  | some uid =>
    if st.isBookSaved then (⟨false, none⟩, true)
    else (⟨true, some (mkSavedBook book uid)⟩, true)

/-! ## Claims about the rating aggregator -/

/-- C1: the aggregator does not maintain the arithmetic mean of the
raters' values. On a book with avgRating 4 and ratingCount 2 (two raters
at 4), a first rating of 2 by a third rater must give avgRating
(4·2+2)/(2+1) = 10/3 and ratingCount 3, but `calculateAvgRating` writes
avgRating (4+2)/2 = 3 and its book patch carries no ratingCount field
at all. -/
theorem c1_aggregator_not_arithmetic_mean :
    calcNewAvgRating 4 2 = 3 ∧
    specNewRatingAvg 4 2 2 = 10 / 3 ∧
    calcNewAvgRating 4 2 ≠ specNewRatingAvg 4 2 2 ∧
    (calculateAvgRating ⟨some 2, some ⟨4, 2⟩, [("u1", false)], fun _ => false⟩).1.bookPatch? =
      some ⟨some 3, none, true⟩ := by
  have h1 : calcNewAvgRating 4 2 = 3 := by norm_num [calcNewAvgRating]
  have h2 : specNewRatingAvg 4 2 2 = 10 / 3 := by
    rw [show specNewRatingAvg 4 2 2 = (4 * (2 : ℕ) + 2 : ℚ) / ((2 : ℕ) + 1) from rfl]
    norm_num
  refine ⟨h1, h2, ?_, ?_⟩
  · rw [h1, h2]; norm_num
  · show (some ⟨some (calcNewAvgRating 4 2), none, true⟩ : Option BookPatch) =
      some ⟨some 3, none, true⟩
    rw [h1]

/-- C7: when the parent book document does not exist, the aggregator is a
silent no-op for every rating payload: it returns null, writes no book
patch, commits no savedBooks batch, and does not delete the orphaned
rating document. -/
theorem c7_missing_book_silent_noop (rv : Option ℚ) (users : List (String × Bool))
    (cf : ℕ → Bool) :
    calculateAvgRating ⟨rv, none, users, cf⟩ = (emptyAggEffects, none) := by
  cases rv <;> rfl

/-- C2: counterexample — on a rating event whose single savedBooks batch
commit fails remotely, the invocation still reports success (and the
failed batch is simply never applied), instead of aborting and reporting
failure. -/
theorem c2_fanout_failure_reports_success :
    (calculateAvgRating ⟨some 5, some ⟨0, 0⟩, [("u1", true)], fun _ => true⟩).2 =
      some ⟨true⟩ ∧
    (calculateAvgRating ⟨some 5, some ⟨0, 0⟩, [("u1", true)], fun _ => true⟩).1.savedBookCommits =
      [["u1"]] ∧
    (calculateAvgRating ⟨some 5, some ⟨0, 0⟩, [("u1", true)], fun _ => true⟩).1.savedBookApplied =
      [] := by
  refine ⟨by decide, by decide, by decide⟩

/-- C2 (amended): whenever the rating payload is valid and the parent book
exists, the invocation reports success regardless of savedBooks batch
failures — the catch clause only logs ("Continue execution even if
savedBooks update fails") and the canonical book patch stands. -/
theorem c2_amended_fanout_failure_swallowed (v : ℚ) (b : BookDoc)
    (users : List (String × Bool)) (cf : ℕ → Bool) :
    (calculateAvgRating ⟨some v, some b, users, cf⟩).2 = some ⟨true⟩ ∧
    (calculateAvgRating ⟨some v, some b, users, cf⟩).1.bookPatch? =
      some ⟨some (calcNewAvgRating b.avgRating v), none, true⟩ := by
  exact ⟨rfl, rfl⟩

/-- The users snapshot of a book saved by 101 users. -/
def c4Users : List (String × Bool) := (List.range 101).map fun i => (toString i, true)

/-- C4: on a rating event for a book with 101 savedBooks projections, the
aggregator commits its single batch at 100 writes and then calls
`batch.update` on that already-committed batch (the source never creates a
fresh batch): the fan-out throws `committedBatchModified`, exactly one
batch of 100 writes was committed, the 101st projection write is never
issued, and the invocation still reports success. -/
theorem c4_aggregator_reuses_committed_batch :
    (calculateAvgRating ⟨some 5, some ⟨3, 7⟩, c4Users, fun _ => false⟩).1.fanoutError =
      some .committedBatchModified ∧
    ((calculateAvgRating ⟨some 5, some ⟨3, 7⟩, c4Users, fun _ => false⟩).1.savedBookCommits).map
      List.length = [100] ∧
    (calculateAvgRating ⟨some 5, some ⟨3, 7⟩, c4Users, fun _ => false⟩).2 = some ⟨true⟩ := by
  set_option maxRecDepth 4000 in
  refine ⟨by decide, by decide, by decide⟩

/-! ## Claims about the book-field propagator -/

/-- The before snapshot of a book update in which no relevant field changed
value; the tags array deserializes with object reference 0. -/
def c3Before : DocData := fun f =>
  if f == "title" then .str "Dune"
  else if f == "coverUrl" then .str "cover.jpg"
  else if f == "genre" then .str "Fiction"
  else if f == "tags" then .arr 0 ["classic"]
  else .undefined

/-- The after snapshot of the same update: identical field values, but the
tags array is a fresh object (reference 1), as snapshot deserialization
always produces. -/
def c3After : DocData := fun f =>
  if f == "title" then .str "Dune"
  else if f == "coverUrl" then .str "cover.jpg"
  else if f == "genre" then .str "Fiction"
  else if f == "tags" then .arr 1 ["classic"]
  else .undefined

/-- An existing savedBooks projection of that book. -/
def c3Proj : DocData := fun f =>
  if f == "title" then .str "Dune"
  else if f == "coverUrl" then .str "cover.jpg"
  else if f == "genre" then .str "Fiction"
  else if f == "tags" then .arr 7 ["classic"]
  else .undefined

/-- C3: a book update in which every relevant field is value-unchanged
(non-empty tags list included) is not a no-op: because the two snapshots'
tags arrays are distinct objects, `!==` reports a change, and the
propagator writes the projection document. -/
theorem c3_rerun_on_unchanged_book_writes :
    (∀ f ∈ relevantFields, sameValue (c3Before f) (c3After f) = true) ∧
    (syncBooksInfo ⟨c3Before, c3After, [("u1", some c3Proj)]⟩).writes =
      [("u1", [("tags", .arr 1 ["classic"])])] ∧
    (syncBooksInfo ⟨c3Before, c3After, [("u1", some c3Proj)]⟩).result = some true := by
  refine ⟨by decide, by decide, by decide⟩

/-- Before snapshot for a genre-only edit (tags array reference 0). -/
def c8Before : DocData := fun f =>
  if f == "title" then .str "Dune"
  else if f == "coverUrl" then .str "cover.jpg"
  else if f == "genre" then .str "Fiction"
  else if f == "tags" then .arr 0 ["t1"]
  else .undefined

/-- After snapshot of the genre-only edit: genre Fiction → Mystery, every
other field value-unchanged (tags freshly deserialized as reference 1). -/
def c8After : DocData := fun f =>
  if f == "title" then .str "Dune"
  else if f == "coverUrl" then .str "cover.jpg"
  else if f == "genre" then .str "Mystery"
  else if f == "tags" then .arr 1 ["t1"]
  else .undefined

/-- First user's projection of the book. -/
def c8ProjA : DocData := fun f =>
  if f == "title" then .str "Dune"
  else if f == "coverUrl" then .str "cover.jpg"
  else if f == "genre" then .str "Fiction"
  else if f == "tags" then .arr 5 ["t1"]
  else .undefined

/-- Second user's projection, holding a stale tags value. -/
def c8ProjB : DocData := fun f =>
  if f == "title" then .str "Dune"
  else if f == "coverUrl" then .str "cover.jpg"
  else if f == "genre" then .str "Fiction"
  else if f == "tags" then .arr 6 ["stale"]
  else .undefined

/-- C8: on a genre-only edit the propagator's patch is not minimal: it
contains `tags` besides `genre` (the value-unchanged tags arrays are
distinct objects under `!==`), both users' projections receive it, genre
and the untouched scalar fields behave as claimed, but the second
projection's tags value is overwritten instead of kept. -/
theorem c8_genre_change_patch_not_minimal :
    (∀ f ∈ relevantFields, f ≠ "genre" → sameValue (c8Before f) (c8After f) = true) ∧
    mkUpdateData c8Before c8After = [("genre", .str "Mystery"), ("tags", .arr 1 ["t1"])] ∧
    (syncBooksInfo ⟨c8Before, c8After, [("u1", some c8ProjA), ("u2", some c8ProjB)]⟩).writes =
      [("u1", mkUpdateData c8Before c8After), ("u2", mkUpdateData c8Before c8After)] ∧
    applyPatch c8ProjB (mkUpdateData c8Before c8After) "genre" = .str "Mystery" ∧
    applyPatch c8ProjB (mkUpdateData c8Before c8After) "title" = c8ProjB "title" ∧
    applyPatch c8ProjB (mkUpdateData c8Before c8After) "coverUrl" = c8ProjB "coverUrl" ∧
    applyPatch c8ProjB (mkUpdateData c8Before c8After) "tags" ≠ c8ProjB "tags" := by
  refine ⟨by decide, by decide, by decide, by decide, by decide, by decide, by decide⟩

/-! ## Claims about the author-name propagator -/

/-- C6: after an author-profile update changing the display name from A to
B (an authenticated author), every book of that author in the output
carries authorName B, and for every user, each savedBooks record that
previously showed A and references one of the author's books is patched to
B inside that user's updated savedBooks list, which appears in the output. -/
theorem c6_author_rename_propagates (inp : AuthorSyncInput)
    (hrole : inp.role? = some "author") (hname : inp.beforeName ≠ inp.afterName) :
    (∀ b ∈ (syncAuthorName inp).books, b.authorId = inp.userId →
      b.authorName = inp.afterName) ∧
    (∀ p ∈ inp.users, ∀ s ∈ p.2, s.authorName = inp.beforeName →
      (∃ b ∈ inp.books, b.authorId = inp.userId ∧ b.id = s.bookId) →
      ((p.1, p.2.map (syncSavedRec inp)) ∈ (syncAuthorName inp).users ∧
        (syncSavedRec inp s).authorName = inp.afterName)) := by
  have hbeq : (inp.beforeName == inp.afterName) = false := by
    simpa using hname
  have hr : (inp.role? == some "author") = true := by
    rw [hrole]; rfl
  by_cases hemp : (inp.books.filter fun b => b.authorId == inp.userId).isEmpty = true
  · have hnone : ∀ b ∈ inp.books, b.authorId ≠ inp.userId := by
      intro b hb heq
      have hmem : b ∈ inp.books.filter fun b => b.authorId == inp.userId :=
        List.mem_filter.mpr ⟨hb, by rw [heq]; exact beq_self_eq_true _⟩
      rw [List.isEmpty_iff] at hemp
      rw [hemp] at hmem
      exact absurd hmem (List.not_mem_nil b)
    have hout : syncAuthorName inp = ⟨inp.books, inp.users, none⟩ := by
      simp [syncAuthorName, hbeq, hr, hemp]
    constructor
    · intro b hbmem hbid
      rw [hout] at hbmem
      exact absurd hbid (hnone b hbmem)
    · intro p _ s _ _ hex
      obtain ⟨b, hbmem, hbid, _⟩ := hex
      exact absurd hbid (hnone b hbmem)
  · have hout : syncAuthorName inp =
        ⟨inp.books.map (syncBookRec inp),
         inp.users.map fun p => (p.1, p.2.map (syncSavedRec inp)), some true⟩ := by
      simp [syncAuthorName, hbeq, hr, hemp]
    constructor
    · intro b hbmem hbid
      rw [hout] at hbmem
      obtain ⟨a, hamem, rfl⟩ := List.mem_map.mp hbmem
      unfold syncBookRec at hbid ⊢
      by_cases ha : (a.authorId == inp.userId) = true
      · rw [if_pos ha]
      · rw [if_neg ha] at hbid ⊢
        exact absurd (beq_iff_eq.mpr hbid) (by simpa using ha)
    · intro p hp s _ hname' _
      refine ⟨?_, ?_⟩
      · rw [hout]
        exact List.mem_map.mpr ⟨p, hp, rfl⟩
      · unfold syncSavedRec
        rw [if_pos (beq_iff_eq.mpr hname')]

/-- A concrete rename event: author a1 renames Alice → Bob; a1 owns book
b1 (another author owns b2); two users hold projections of b1 cached under
the name Alice. -/
def c6Input : AuthorSyncInput :=
  ⟨"a1", "Alice", "Bob", some "author",
   [⟨"b1", "a1", "Alice"⟩, ⟨"b2", "zz", "Alice"⟩],
   [("u1", [⟨"b1", "Alice"⟩]), ("u2", [⟨"b1", "Alice"⟩, ⟨"b3", "Carol"⟩])]⟩

/-- C6 witness: the rename propagates on the concrete event `c6Input`. -/
theorem c6_author_rename_propagates_witness :
    (∀ b ∈ (syncAuthorName c6Input).books, b.authorId = c6Input.userId →
      b.authorName = c6Input.afterName) ∧
    (∀ p ∈ c6Input.users, ∀ s ∈ p.2, s.authorName = c6Input.beforeName →
      (∃ b ∈ c6Input.books, b.authorId = c6Input.userId ∧ b.id = s.bookId) →
      ((p.1, p.2.map (syncSavedRec c6Input)) ∈ (syncAuthorName c6Input).users ∧
        (syncSavedRec c6Input s).authorName = c6Input.afterName)) :=
  c6_author_rename_propagates c6Input rfl (by decide)

/-! ## Claims about the client reconciler and save toggle -/

/-- Whether a client write is an `updateDoc` of the rating-summary fields
(`avgRating`, `ratingCount`) on the canonical book document. -/
def ClientWrite.isBookAggregateWrite : ClientWrite → Bool
  | .updateBook _ _ _ => true
  | _ => false

/-- A concrete successful first-time submission: user u1, book with cached
avgRating 4 over 2 ratings, new value 5, the book loaded locally. -/
def c5Input : RateBookInput := ⟨some "u1", some ⟨some 4, some 2⟩, none, true, 5⟩

/-- C5: counterexample — this successful client rating submission does
write the locally recomputed avgRating and ratingCount onto the canonical
book document (the `updateDoc` on `books/{bookId}` right after the rating
write). -/
theorem c5_counterexample_client_writes_book :
    (rateBook c5Input).returnValue = true ∧
    (rateBook c5Input).writes.any ClientWrite.isBookAggregateWrite = true := by
  exact ⟨rfl, rfl⟩

/-- C5 (amended): every successful client rating submission (authenticated
user, existing book) writes the rating document and then writes the
locally recomputed avgRating and ratingCount onto the canonical book
document, rather than leaving the book record to the aggregator. -/
theorem c5_amended_client_persists_aggregate (uid : String) (d : ClientBookDoc)
    (prior : Option ℚ) (loaded : Bool) (r : ℚ) :
    ∃ avg : ℚ, ∃ cnt : ℕ,
      (rateBook ⟨some uid, some d, prior, loaded, r⟩).writes =
        [ClientWrite.setRating uid r, ClientWrite.updateBook avg cnt true] ∧
      (rateBook ⟨some uid, some d, prior, loaded, r⟩).returnValue = true := by
  cases prior <;> exact ⟨_, _, rfl, rfl⟩

/-- C9: the client reconciler implements exactly the §4.1 incremental-mean
reference: a first-time rating writes `(oldAvg*oldCount+v)/(oldCount+1)`
with the count incremented, a corrected rating writes
`(oldAvg*oldCount-oldValue+v)/oldCount` with the count unchanged, and when
the rated book is loaded locally the locally held average is set to the
same value. -/
theorem c9_reconciler_refines_spec_formulas (uid : String) (d : ClientBookDoc)
    (loaded : Bool) (r : ℚ) :
    ((rateBook ⟨some uid, some d, none, loaded, r⟩).writes =
      [ClientWrite.setRating uid r,
       ClientWrite.updateBook
         (specNewRatingAvg (d.avgRating?.getD 0) (d.ratingCount?.getD 0) r)
         (d.ratingCount?.getD 0 + 1) true] ∧
     (rateBook ⟨some uid, some d, none, true, r⟩).localAvg? =
       some (specNewRatingAvg (d.avgRating?.getD 0) (d.ratingCount?.getD 0) r)) ∧
    ∀ prev : ℚ,
      ((rateBook ⟨some uid, some d, some prev, loaded, r⟩).writes =
        [ClientWrite.setRating uid r,
         ClientWrite.updateBook
           (specCorrectedRatingAvg (d.avgRating?.getD 0) (d.ratingCount?.getD 0) prev r)
           (d.ratingCount?.getD 0) true] ∧
       (rateBook ⟨some uid, some d, some prev, true, r⟩).localAvg? =
         some (specCorrectedRatingAvg (d.avgRating?.getD 0) (d.ratingCount?.getD 0) prev r)) := by
  have hcast : ((d.ratingCount?.getD 0 + 1 : ℕ) : ℚ) = (d.ratingCount?.getD 0 : ℕ) + 1 := by
    push_cast
    ring
  refine ⟨⟨?_, ?_⟩, fun prev => ⟨?_, ?_⟩⟩ <;>
    simp [rateBook, specNewRatingAvg, specCorrectedRatingAvg, hcast]

/-- C10: for an authenticated user, `saveBook` is a pure toggle: when the
book is marked saved it deletes the projection document and clears the
flag, otherwise it creates the projection copying the book's fields plus
the owning user id and sets the flag; either way it returns true, and two
successive calls restore the original saved/unsaved state. -/
theorem c10_savebook_toggles (uid : String) (book : ClientBook) (st : SaveState) :
    saveBook (some uid) book st =
      (if st.isBookSaved then (⟨false, none⟩, true)
       else (⟨true, some (mkSavedBook book uid)⟩, true)) ∧
    (saveBook (some uid) book (saveBook (some uid) book st).1).1.isBookSaved =
      st.isBookSaved := by
  cases h : st.isBookSaved <;> simp [saveBook, h]

end BookLibrary
